import Mathlib

/-!
Shallow embedding of the solmint staking and lending programs
(src/programs/staking/src/lib.rs and src/programs/lending/src/lib.rs).

Modelling conventions:
* Rust `u64` / `u128` values are `Nat`; the width shows up only in the
  `checked_*` operations, which fail (return `none`) exactly when the Rust
  operation would overflow its width.
* Rust `i64` timestamps are `Int`.
* A Rust `as u64` cast of an `i64` is reduction mod 2^64 (two's complement);
  an `as u64` cast of a `u128` is reduction mod 2^64.
* A failing instruction returns `Except.error e`; on Solana this aborts the
  call before the pool / user records are re-serialized, so an error result
  means the persisted records are unchanged.
* SPL token transfers move lamports outside the pool / user records; the
  processors below return the transfer amounts so that theorems can speak
  about value leaving the ledger.
-/

namespace Solmint

def U64 : Nat := 2 ^ 64

def U128 : Nat := 2 ^ 128

/-- Rust `u64::checked_add`. -/
def checkedAdd64 (a b : Nat) : Option Nat :=
  if a + b < U64 then some (a + b) else none

/-- Rust `u64::checked_mul`. -/
def checkedMul64 (a b : Nat) : Option Nat :=
  if a * b < U64 then some (a * b) else none

/-- Rust `u128::checked_add`. -/
def checkedAdd128 (a b : Nat) : Option Nat :=
  if a + b < U128 then some (a + b) else none

/-- Rust `u128::checked_mul`. -/
def checkedMul128 (a b : Nat) : Option Nat :=
  if a * b < U128 then some (a * b) else none

/-- Rust `checked_sub` (width-independent on `Nat`): fails iff the result
would be negative. -/
def checkedSub (a b : Nat) : Option Nat :=
  if b ≤ a then some (a - b) else none

/-- Rust `checked_div` (width-independent): fails iff the divisor is zero. -/
def checkedDiv (a b : Nat) : Option Nat :=
  if b = 0 then none else some (a / b)

/-- Rust `i64 as u64` two's-complement cast. -/
def i64ToU64 (v : Int) : Nat :=
  (v % (2 ^ 64 : Int)).toNat

/-- The subset of `solana_program::program_error::ProgramError` values the two
programs produce; `custom n` is `ProgramError::Custom(n)`. -/
inductive ProgramError where
  | invalidInstructionData
  | invalidArgument
  | overflow
  | custom (code : Nat)
deriving DecidableEq

namespace Staking

/-- Constant `FEE_WALLET` of the staking program. -/
def FEE_WALLET : String := "6zkf4DviZZkpWVEh53MrcQV6vGXGpESnNXgAvU6KpBUH"

/-- Constant `SERVICE_FEE_BPS` of the staking program (0.3%). -/
def SERVICE_FEE_BPS : Nat := 30

/-- Struct `StakePool`, Pubkey fields modelled as strings. -/
structure StakePool where
  is_initialized : Bool
  token_mint : String
  pool_authority : String
  stake_token_account : String
  reward_token_account : String
  total_staked : Nat
  reward_rate : Nat
  last_update_time : Int
  reward_per_token_stored : Nat
deriving DecidableEq

/-- Struct `UserStakeInfo`. -/
structure UserStakeInfo where
  owner : String
  stake_amount : Nat
  rewards_earned : Nat
  reward_per_token_paid : Nat
  start_time : Int
  lock_period : Int
deriving DecidableEq

/-- Enum `StakingError`. -/
inductive StakingError where
  | invalidInstruction
  | notRentExempt
  | alreadyInUse
  | invalidTokenAccount
  | insufficientStakeBalance
  | stakeLocked
deriving DecidableEq

/-- Discriminant of `StakingError` (`e as u32` in the `From` impl). -/
def StakingError.code : StakingError → Nat
  | .invalidInstruction => 0
  | .notRentExempt => 1
  | .alreadyInUse => 2
  | .invalidTokenAccount => 3
  | .insufficientStakeBalance => 4
  | .stakeLocked => 5

/-- Conversion `From<StakingError> for ProgramError`. -/
def stakingErr (e : StakingError) : ProgramError :=
  .custom e.code

/-- Enum `StakingInstruction` (derive(FromPrimitive), discriminants 0..4);
`init` models the Rust variant named after pool creation (discriminant 0). -/
inductive StakingInstruction where
  | init
  | stake
  | unstake
  | claimReward
  | updatePool
deriving DecidableEq

/-- `StakingInstruction::try_from_primitive` on the leading opcode byte. -/
def StakingInstruction.fromPrimitive : Nat → Option StakingInstruction
  | 0 => some .init
  | 1 => some .stake
  | 2 => some .unstake
  | 3 => some .claimReward
  | 4 => some .updatePool
  | _ => none

/-- Function `update_pool` of the staking program: advance the accumulator
`reward_per_token_stored` by `elapsed × reward_rate × 10^12 / total_staked`. -/
def update_pool (pool : StakePool) (current_time : Int) :
    Except ProgramError StakePool :=
  if pool.total_staked = 0 then
    Except.ok { pool with last_update_time := current_time }
  else
    let time_elapsed : Int := current_time - pool.last_update_time
    if 0 < time_elapsed then
      match checkedMul64 time_elapsed.toNat pool.reward_rate with
      | none => Except.error ProgramError.overflow
      | some reward =>
        match checkedMul128 reward 1000000000000 with
        | none => Except.error ProgramError.overflow
        | some scaled =>
          match checkedDiv scaled pool.total_staked with
          | none => Except.error ProgramError.overflow
          | some reward_per_token =>
            match checkedAdd128 pool.reward_per_token_stored reward_per_token with
            | none => Except.error ProgramError.overflow
            | some rpt =>
              Except.ok { pool with
                reward_per_token_stored := rpt
                last_update_time := current_time }
    else
      Except.ok pool

/-- Function `update_rewards` of the staking program: settle the user's
position against the current accumulator. -/
def update_rewards (pool : StakePool) (user : UserStakeInfo) :
    Except ProgramError UserStakeInfo :=
  let reward_per_token := pool.reward_per_token_stored
  match checkedSub reward_per_token user.reward_per_token_paid with
  | none => Except.error ProgramError.overflow
  | some diff =>
    match checkedMul128 user.stake_amount diff with
    | none => Except.error ProgramError.overflow
    | some prod =>
      match checkedDiv prod 1000000000000 with
      | none => Except.error ProgramError.overflow
      | some rewards =>
        match checkedAdd64 user.rewards_earned (rewards % U64) with
        | none => Except.error ProgramError.overflow
        | some earned =>
          Except.ok { user with
            rewards_earned := earned
            reward_per_token_paid := reward_per_token }

/-- A persisted call to `update_pool`: on error the records are not
re-serialized, so the pool is unchanged. -/
def apply_update_pool (pool : StakePool) (t : Int) : StakePool :=
  match update_pool pool t with
  | Except.ok p => p
  | Except.error _ => pool

/-- A sequence of `UpdatePool` instructions with arbitrary timestamps. -/
def run_update_pool (pool : StakePool) (ts : List Int) : StakePool :=
  ts.foldl apply_update_pool pool

/-- Function `process_unstake` (state part; token transfer elided, the
unstaked amount is implicit in the state delta). -/
def process_unstake (pool : StakePool) (user : UserStakeInfo) (now : Int)
    (amount : Nat) : Except ProgramError (StakePool × UserStakeInfo) :=
  if now < user.start_time + user.lock_period then
    Except.error (stakingErr .stakeLocked)
  else if user.stake_amount < amount then
    Except.error (stakingErr .insufficientStakeBalance)
  else
    match update_pool pool now with
    | Except.error e => Except.error e
    | Except.ok pool1 =>
      match update_rewards pool1 user with
      | Except.error e => Except.error e
      | Except.ok user1 =>
        match checkedSub user1.stake_amount amount with
        | none => Except.error ProgramError.overflow
        | some newStake =>
          match checkedSub pool1.total_staked amount with
          | none => Except.error ProgramError.overflow
          | some newTotal =>
            Except.ok ({ pool1 with total_staked := newTotal },
              { user1 with stake_amount := newStake })

/-- Function `process_claim_reward`; the last two components of the result
are the amounts of the two SPL transfers: reward paid to the user and fee
paid to the fee wallet. -/
def process_claim_reward (pool : StakePool) (user : UserStakeInfo)
    (fee_wallet : String) (now : Int) :
    Except ProgramError (StakePool × UserStakeInfo × Nat × Nat) :=
  if fee_wallet ≠ FEE_WALLET then
    Except.error ProgramError.invalidArgument
  else
    match update_pool pool now with
    | Except.error e => Except.error e
    | Except.ok pool1 =>
      match update_rewards pool1 user with
      | Except.error e => Except.error e
      | Except.ok user1 =>
        let reward_amount := user1.rewards_earned
        if 0 < reward_amount then
          match checkedMul64 reward_amount SERVICE_FEE_BPS with
          | none => Except.error ProgramError.overflow
          | some m =>
            match checkedDiv m 10000 with
            | none => Except.error ProgramError.overflow
            | some fee_amount =>
              match checkedSub reward_amount fee_amount with
              | none => Except.error ProgramError.overflow
              | some user_reward =>
                Except.ok (pool1, { user1 with rewards_earned := 0 },
                  user_reward, fee_amount)
        else
          Except.ok (pool1, user1, 0, 0)

/-- Fixture for the single-staker scenario: the pool right after
the Initialize instruction except for stake `S` and rate `R`, accumulator 0,
last sync at time 0. -/
def singleStakerPool (S R : Nat) : StakePool :=
  { is_initialized := true
    token_mint := ""
    pool_authority := ""
    stake_token_account := ""
    reward_token_account := ""
    total_staked := S
    reward_rate := R
    last_update_time := 0
    reward_per_token_stored := 0 }

/-- Fixture: a user holding the whole stake `S`, checkpoint 0. -/
def singleStakerUser (S : Nat) : UserStakeInfo :=
  { owner := ""
    stake_amount := S
    rewards_earned := 0
    reward_per_token_paid := 0
    start_time := 0
    lock_period := 604800 }

end Staking

namespace Lending

/-- Constant `FEE_WALLET` of the lending program. -/
def FEE_WALLET : String := "6zkf4DviZZkpWVEh53MrcQV6vGXGpESnNXgAvU6KpBUH"

/-- Constant `SERVICE_FEE_BPS` of the lending program (0.2%). -/
def SERVICE_FEE_BPS : Nat := 20

/-- Struct `LendingPool`. -/
structure LendingPool where
  is_initialized : Bool
  token_mint : String
  pool_authority : String
  lending_token_account : String
  total_deposits : Nat
  total_borrows : Nat
  last_update_time : Int
  lending_rate : Nat
  borrowing_rate : Nat
  collateral_ratio : Nat
deriving DecidableEq

/-- Struct `UserLendingInfo`. -/
structure UserLendingInfo where
  owner : String
  deposited_amount : Nat
  borrowed_amount : Nat
  collateral_amount : Nat
  last_update_time : Int
  cumulative_deposit_interest : Nat
  cumulative_borrow_interest : Nat
deriving DecidableEq

/-- Enum `LendingError`. -/
inductive LendingError where
  | invalidInstruction
  | notRentExempt
  | alreadyInUse
  | invalidTokenAccount
  | insufficientCollateral
  | insufficientLiquidity
  | positionNotLiquidatable
deriving DecidableEq

/-- Discriminant of `LendingError` (`e as u32` in the `From` impl). -/
def LendingError.code : LendingError → Nat
  | .invalidInstruction => 0
  | .notRentExempt => 1
  | .alreadyInUse => 2
  | .invalidTokenAccount => 3
  | .insufficientCollateral => 4
  | .insufficientLiquidity => 5
  | .positionNotLiquidatable => 6

/-- Conversion `From<LendingError> for ProgramError`. -/
def lendingErr (e : LendingError) : ProgramError :=
  .custom e.code

/-- Enum `LendingInstruction` (derive(FromPrimitive), discriminants 0..7);
`init` models the Rust variant named after pool creation (discriminant 0). -/
inductive LendingInstruction where
  | init
  | deposit
  | withdraw
  | borrow
  | repay
  | addCollateral
  | withdrawCollateral
  | liquidatePosition
deriving DecidableEq

/-- `LendingInstruction::try_from_primitive` on the leading opcode byte. -/
def LendingInstruction.fromPrimitive : Nat → Option LendingInstruction
  | 0 => some .init
  | 1 => some .deposit
  | 2 => some .withdraw
  | 3 => some .borrow
  | 4 => some .repay
  | 5 => some .addCollateral
  | 6 => some .withdrawCollateral
  | 7 => some .liquidatePosition
  | _ => none

/-- Denominator `365 * 24 * 60 * 60 * 10000` of the simple-interest formula. -/
def YEAR_BPS : Nat := 365 * 24 * 60 * 60 * 10000

/-- The deposit-interest block of `update_interest` (the first inner `if` of
the source function): `deposited × lending_rate × elapsed / YEAR_BPS`, added
to `cumulative_deposit_interest`. -/
def accrue_deposit_interest (pool : LendingPool) (user : UserLendingInfo)
    (time_elapsed : Nat) : Except ProgramError UserLendingInfo :=
  if 0 < user.deposited_amount then
    match checkedMul64 user.deposited_amount pool.lending_rate with
    | none => Except.error ProgramError.overflow
    | some a =>
      match checkedMul64 a time_elapsed with
      | none => Except.error ProgramError.overflow
      | some b =>
        match checkedDiv b YEAR_BPS with
        | none => Except.error ProgramError.overflow
        | some deposit_interest =>
          match checkedAdd64 user.cumulative_deposit_interest deposit_interest with
          | none => Except.error ProgramError.overflow
          | some c =>
            Except.ok { user with cumulative_deposit_interest := c }
  else
    Except.ok user

/-- The borrow-interest block of `update_interest` (the second inner `if` of
the source function): `borrowed × borrowing_rate × elapsed / YEAR_BPS`, added
to `cumulative_borrow_interest`. -/
def accrue_borrow_interest (pool : LendingPool) (user : UserLendingInfo)
    (time_elapsed : Nat) : Except ProgramError UserLendingInfo :=
  if 0 < user.borrowed_amount then
    match checkedMul64 user.borrowed_amount pool.borrowing_rate with
    | none => Except.error ProgramError.overflow
    | some a =>
      match checkedMul64 a time_elapsed with
      | none => Except.error ProgramError.overflow
      | some b =>
        match checkedDiv b YEAR_BPS with
        | none => Except.error ProgramError.overflow
        | some borrow_interest =>
          match checkedAdd64 user.cumulative_borrow_interest borrow_interest with
          | none => Except.error ProgramError.overflow
          | some c =>
            Except.ok { user with cumulative_borrow_interest := c }
  else
    Except.ok user

/-- Function `update_interest`: accrue simple deposit- and borrow-interest on
the user's position (the pool argument is read-only in the source: only the
rates are consulted, no pool field is written). `time_elapsed` is the Rust
expression `(current_time - user.last_update_time) as u64`. -/
def update_interest (pool : LendingPool) (user : UserLendingInfo)
    (current_time : Int) : Except ProgramError UserLendingInfo :=
  let time_elapsed := i64ToU64 (current_time - user.last_update_time)
  if 0 < time_elapsed then
    match accrue_deposit_interest pool user time_elapsed with
    | Except.error e => Except.error e
    | Except.ok user1 =>
      match accrue_borrow_interest pool user1 time_elapsed with
      | Except.error e => Except.error e
      | Except.ok user2 =>
        Except.ok { user2 with last_update_time := current_time }
  else
    Except.ok user

/-- Function `check_collateral_ratio`: `deposit × 10000 ≥ borrow × ratio`
in u128, with `unwrap_or(0)` on each (never-overflowing for u64 inputs)
widened multiplication. -/
def check_collateral_ratio (pool : LendingPool) (deposit_amount : Nat)
    (borrow_amount : Nat) : Bool :=
  if borrow_amount = 0 then
    true
  else
    let collateral_value := (checkedMul128 deposit_amount 10000).getD 0
    let required_collateral :=
      (checkedMul128 borrow_amount pool.collateral_ratio).getD 0
    decide (required_collateral ≤ collateral_value)

/-- Function `process_borrow`; the last two components of the result are the
amounts of the two SPL transfers: net disbursed to the user and fee paid to
the fee wallet. -/
def process_borrow (pool : LendingPool) (user : UserLendingInfo)
    (fee_wallet : String) (now : Int) (amount : Nat) :
    Except ProgramError (LendingPool × UserLendingInfo × Nat × Nat) :=
  if fee_wallet ≠ FEE_WALLET then
    Except.error ProgramError.invalidArgument
  else
    match update_interest pool user now with
    | Except.error e => Except.error e
    | Except.ok user1 =>
      match checkedSub pool.total_deposits pool.total_borrows with
      | none => Except.error ProgramError.overflow
      | some avail =>
        if avail < amount then
          Except.error (lendingErr .insufficientLiquidity)
        else
          match checkedAdd64 user1.borrowed_amount amount with
          | none => Except.error ProgramError.overflow
          | some new_borrow_amount =>
            if ¬ check_collateral_ratio pool user1.deposited_amount new_borrow_amount then
              Except.error (lendingErr .insufficientCollateral)
            else
              match checkedMul64 amount SERVICE_FEE_BPS with
              | none => Except.error ProgramError.overflow
              | some m =>
                match checkedDiv m 10000 with
                | none => Except.error ProgramError.overflow
                | some fee_amount =>
                  match checkedSub amount fee_amount with
                  | none => Except.error ProgramError.overflow
                  | some user_borrow_amount =>
                    match checkedAdd64 pool.total_borrows amount with
                    | none => Except.error ProgramError.overflow
                    | some newTotal =>
                      Except.ok ({ pool with total_borrows := newTotal },
                        { user1 with borrowed_amount := new_borrow_amount },
                        user_borrow_amount, fee_amount)

/-- Function `process_repay`; the last component of the result is the amount
of the SPL transfer from the user back to the pool. -/
def process_repay (pool : LendingPool) (user : UserLendingInfo) (now : Int)
    (amount : Nat) :
    Except ProgramError (LendingPool × UserLendingInfo × Nat) :=
  match update_interest pool user now with
  | Except.error e => Except.error e
  | Except.ok user1 =>
    let repay_amount := min amount user1.borrowed_amount
    match checkedSub user1.borrowed_amount repay_amount with
    | none => Except.error ProgramError.overflow
    | some newBorrowed =>
      match checkedSub pool.total_borrows repay_amount with
      | none => Except.error ProgramError.overflow
      | some newTotal =>
        Except.ok ({ pool with total_borrows := newTotal },
          { user1 with borrowed_amount := newBorrowed }, repay_amount)

end Lending

/-- The amount parse shared by every amount-bearing instruction:
`data.copy_from_slice(&instruction_data[..8]); u64::from_le_bytes(data)` —
an 8-byte little-endian integer from the bytes following the opcode
(`none` models the slice panic when fewer than 8 bytes follow). -/
def readU64LE (bytes : List Nat) : Option Nat :=
  match bytes with
  | b0 :: b1 :: b2 :: b3 :: b4 :: b5 :: b6 :: b7 :: _ =>
    some (b0 + 256 * (b1 + 256 * (b2 + 256 * (b3 + 256 *
      (b4 + 256 * (b5 + 256 * (b6 + 256 * b7)))))))
  | _ => none

/-- Fixture: a freshly initialized lending pool holding one million deposited
tokens, with the rates and ratio written at pool creation. -/
def demoLendingPool : Lending.LendingPool :=
  { is_initialized := true
    token_mint := ""
    pool_authority := ""
    lending_token_account := ""
    total_deposits := 1000000
    total_borrows := 0
    last_update_time := 0
    lending_rate := 500
    borrowing_rate := 1000
    collateral_ratio := 15000 }

/-- Fixture: a lending position with one million deposited tokens and no
debt, synchronized at time 0. -/
def demoLendingUser : Lending.UserLendingInfo :=
  { owner := ""
    deposited_amount := 1000000
    borrowed_amount := 0
    collateral_amount := 0
    last_update_time := 0
    cumulative_deposit_interest := 0
    cumulative_borrow_interest := 0 }

/-- Fixture: a lending position with 100 deposited tokens and no debt,
synchronized at time 0. -/
def thinLendingUser : Lending.UserLendingInfo :=
  { demoLendingUser with deposited_amount := 100 }

/-- Fixture: the demo pool with 100 outstanding borrows. -/
def repayPool : Lending.LendingPool :=
  { demoLendingPool with total_borrows := 100 }

/-- Fixture: a position owing 50 tokens, synchronized at time 0. -/
def repayUser : Lending.UserLendingInfo :=
  { demoLendingUser with borrowed_amount := 50 }

/-- Fixture: the single-staker pool after a sync at time 10 (accumulator
`10 × 100 × 10^12 / 1000 = 10^12`). -/
def syncedStakePool : Staking.StakePool :=
  { Staking.singleStakerPool 1000 100 with
    reward_per_token_stored := 1000000000000
    last_update_time := 10 }

/-- Fixture: the single staker after settling against `syncedStakePool`. -/
def settledStakeUser : Staking.UserStakeInfo :=
  { Staking.singleStakerUser 1000 with
    rewards_earned := 1000
    reward_per_token_paid := 1000000000000 }

/-- Fixture: the demo lending position after accruing at time 10 (the
interest rounds to zero, only the checkpoint advances). -/
def syncedLendingUser : Lending.UserLendingInfo :=
  { demoLendingUser with last_update_time := 10 }

/-! ### Inversion lemmas for the checked operations -/

theorem checkedAdd64_some {a b c : Nat} (h : checkedAdd64 a b = some c) :
    c = a + b ∧ a + b < U64 := by
  unfold checkedAdd64 at h
  split at h <;> simp_all

theorem checkedMul64_some {a b c : Nat} (h : checkedMul64 a b = some c) :
    c = a * b ∧ a * b < U64 := by
  unfold checkedMul64 at h
  split at h <;> simp_all

theorem checkedAdd128_some {a b c : Nat} (h : checkedAdd128 a b = some c) :
    c = a + b ∧ a + b < U128 := by
  unfold checkedAdd128 at h
  split at h <;> simp_all

theorem checkedMul128_some {a b c : Nat} (h : checkedMul128 a b = some c) :
    c = a * b ∧ a * b < U128 := by
  unfold checkedMul128 at h
  split at h <;> simp_all

theorem checkedSub_some {a b c : Nat} (h : checkedSub a b = some c) :
    c = a - b ∧ b ≤ a := by
  unfold checkedSub at h
  split at h <;> simp_all

theorem checkedDiv_some {a b c : Nat} (h : checkedDiv a b = some c) :
    c = a / b ∧ b ≠ 0 := by
  unfold checkedDiv at h
  split at h <;> simp_all

theorem checkedAdd64_of_lt {a b : Nat} (h : a + b < U64) :
    checkedAdd64 a b = some (a + b) := by
  unfold checkedAdd64
  simp [h]

theorem checkedMul64_of_lt {a b : Nat} (h : a * b < U64) :
    checkedMul64 a b = some (a * b) := by
  unfold checkedMul64
  simp [h]

theorem checkedAdd128_of_lt {a b : Nat} (h : a + b < U128) :
    checkedAdd128 a b = some (a + b) := by
  unfold checkedAdd128
  simp [h]

theorem checkedMul128_of_lt {a b : Nat} (h : a * b < U128) :
    checkedMul128 a b = some (a * b) := by
  unfold checkedMul128
  simp [h]

theorem checkedSub_of_le {a b : Nat} (h : b ≤ a) :
    checkedSub a b = some (a - b) := by
  unfold checkedSub
  simp [h]

theorem checkedDiv_of_ne {a b : Nat} (h : b ≠ 0) :
    checkedDiv a b = some (a / b) := by
  unfold checkedDiv
  simp [h]

/-! ### Single-step facts about the staking accrual engine -/

namespace Staking

/-- A successful `update_pool` never decreases the accumulator. -/
theorem update_pool_rpt_le {p : StakePool} {t : Int} {p1 : StakePool}
    (h : update_pool p t = Except.ok p1) :
    p.reward_per_token_stored ≤ p1.reward_per_token_stored := by
  unfold update_pool at h
  split at h
  · cases h
    exact le_refl _
  · dsimp only at h
    split at h
    · split at h
      · exact absurd h (by simp)
      · split at h
        · exact absurd h (by simp)
        · split at h
          · exact absurd h (by simp)
          · split at h
            · exact absurd h (by simp)
            · rename_i hadd
              cases h
              obtain ⟨heq, -⟩ := checkedAdd128_some hadd
              dsimp only
              omega
    · cases h
      exact le_refl _

end Staking

/-! ### Claim theorems -/

open Staking Lending

/-- C1: for every pool state and every sequence of `update_pool` syncs with
arbitrary timestamps (a failed sync aborting the call and leaving the record
unchanged), the accumulator `reward_per_token_stored` never decreases. -/
theorem c1_update_pool_accumulator_monotone (pool : Staking.StakePool)
    (ts : List Int) :
    pool.reward_per_token_stored ≤
      (Staking.run_update_pool pool ts).reward_per_token_stored := by
  induction ts generalizing pool with
  | nil => exact le_refl _
  | cons t ts ih =>
    refine le_trans ?_ (ih (Staking.apply_update_pool pool t))
    unfold Staking.apply_update_pool
    cases h : Staking.update_pool pool t with
    | ok p1 => exact Staking.update_pool_rpt_le h
    | error e => exact le_refl _

/-! ### Field-preservation lemmas for the lending accrual engine -/

namespace Lending

/-- The deposit-interest block only writes `cumulative_deposit_interest`. -/
theorem accrue_deposit_fields {pool : LendingPool} {u u1 : UserLendingInfo}
    {te : Nat} (h : accrue_deposit_interest pool u te = Except.ok u1) :
    u1.deposited_amount = u.deposited_amount ∧
    u1.borrowed_amount = u.borrowed_amount ∧
    u1.collateral_amount = u.collateral_amount ∧
    u1.last_update_time = u.last_update_time ∧
    u1.cumulative_borrow_interest = u.cumulative_borrow_interest := by
  unfold accrue_deposit_interest at h
  repeat' split at h
  all_goals first
  | (cases h; exact ⟨rfl, rfl, rfl, rfl, rfl⟩)
  | simp at h

/-- The borrow-interest block only writes `cumulative_borrow_interest`. -/
theorem accrue_borrow_fields {pool : LendingPool} {u u1 : UserLendingInfo}
    {te : Nat} (h : accrue_borrow_interest pool u te = Except.ok u1) :
    u1.deposited_amount = u.deposited_amount ∧
    u1.borrowed_amount = u.borrowed_amount ∧
    u1.collateral_amount = u.collateral_amount ∧
    u1.last_update_time = u.last_update_time ∧
    u1.cumulative_deposit_interest = u.cumulative_deposit_interest := by
  unfold accrue_borrow_interest at h
  repeat' split at h
  all_goals first
  | (cases h; exact ⟨rfl, rfl, rfl, rfl, rfl⟩)
  | simp at h

/-- `update_interest` never changes the principal amounts of the position. -/
theorem update_interest_fields {pool : LendingPool} {u u1 : UserLendingInfo}
    {t : Int} (h : update_interest pool u t = Except.ok u1) :
    u1.deposited_amount = u.deposited_amount ∧
    u1.borrowed_amount = u.borrowed_amount := by
  unfold update_interest at h
  dsimp only at h
  split at h
  · split at h
    · simp at h
    · rename_i v1 h1
      split at h
      · simp at h
      · rename_i v2 h2
        cases h
        obtain ⟨hd1, hb1, -, -, -⟩ := accrue_deposit_fields h1
        obtain ⟨hd2, hb2, -, -, -⟩ := accrue_borrow_fields h2
        exact ⟨by simp [hd2, hd1], by simp [hb2, hb1]⟩
  · cases h
    exact ⟨rfl, rfl⟩

end Lending

/-- C4: an `Unstake` at a time strictly earlier than
`start_time + lock_period` is rejected with the `StakeLocked` custom error;
the error aborts the instruction before either record is re-serialized, so
`stake_amount` and `total_staked` persist unchanged. -/
theorem c4_unstake_locked (pool : Staking.StakePool)
    (user : Staking.UserStakeInfo) (now : Int) (amount : Nat)
    (h : now < user.start_time + user.lock_period) :
    Staking.process_unstake pool user now amount =
      Except.error (Staking.stakingErr .stakeLocked) := by
  unfold Staking.process_unstake
  rw [if_pos h]

/-- Witness for C4: one second before the 7-day lock expires, the unstake is
rejected with `StakeLocked`. -/
theorem c4_unstake_locked_witness :
    ((604799 : Int) <
      (Staking.singleStakerUser 1000).start_time +
        (Staking.singleStakerUser 1000).lock_period) ∧
    Staking.process_unstake (Staking.singleStakerPool 1000 100)
        (Staking.singleStakerUser 1000) 604799 500 =
      Except.error (Staking.stakingErr .stakeLocked) :=
  ⟨by decide,
   c4_unstake_locked (Staking.singleStakerPool 1000 100)
     (Staking.singleStakerUser 1000) 604799 500 (by decide)⟩

/-- C8: both fee-bearing calls — lending `Borrow` and staking `ClaimReward` —
compare the supplied fee-recipient identity with the compiled-in `FEE_WALLET`
constant first, and on mismatch fail with `ProgramError::InvalidArgument`
before any transfer or state write. -/
theorem c8_fee_wallet_checked (lpool : Lending.LendingPool)
    (luser : Lending.UserLendingInfo) (spool : Staking.StakePool)
    (suser : Staking.UserStakeInfo) (fw : String) (now : Int) (amount : Nat)
    (h1 : fw ≠ Lending.FEE_WALLET) (h2 : fw ≠ Staking.FEE_WALLET) :
    Lending.process_borrow lpool luser fw now amount =
      Except.error ProgramError.invalidArgument ∧
    Staking.process_claim_reward spool suser fw now =
      Except.error ProgramError.invalidArgument := by
  constructor
  · unfold Lending.process_borrow
    rw [if_pos h1]
  · unfold Staking.process_claim_reward
    rw [if_pos h2]

/-- Witness for C8: an arbitrary non-treasury identity is rejected by both
calls. -/
theorem c8_fee_wallet_checked_witness :
    (("attacker" : String) ≠ Lending.FEE_WALLET) ∧
    (("attacker" : String) ≠ Staking.FEE_WALLET) ∧
    Lending.process_borrow demoLendingPool demoLendingUser "attacker" 0 10 =
      Except.error ProgramError.invalidArgument ∧
    Staking.process_claim_reward (Staking.singleStakerPool 1000 100)
        (Staking.singleStakerUser 1000) "attacker" 0 =
      Except.error ProgramError.invalidArgument :=
  ⟨by decide, by decide,
   c8_fee_wallet_checked demoLendingPool demoLendingUser
     (Staking.singleStakerPool 1000 100) (Staking.singleStakerUser 1000)
     "attacker" 0 10 (by decide) (by decide)⟩

/-- C9 counterexample: the claimed single opcode map is false on the code.
Opcode byte 8 is rejected as an invalid instruction by both programs (the
lending enum ends at `LiquidatePosition = 7`, the staking enum at
`UpdatePool = 4`), yet the claim assigns it `ClaimReward`; moreover the
staking program decodes byte 3 as `ClaimReward`, not `Borrow`. -/
theorem c9_opcode_counterexample :
    Lending.LendingInstruction.fromPrimitive 8 = none ∧
    Staking.StakingInstruction.fromPrimitive 8 = none ∧
    Staking.StakingInstruction.fromPrimitive 3 =
      some Staking.StakingInstruction.claimReward :=
  ⟨rfl, rfl, rfl⟩

/-- C9 amended: each program has its own opcode map. Lending:
Initialize=0, Deposit=1, Withdraw=2, Borrow=3, Repay=4, AddCollateral=5,
WithdrawCollateral=6, Liquidate=7, and every byte ≥ 8 is an
invalid-instruction error. Staking: Initialize=0, Stake=1, Unstake=2,
ClaimReward=3, UpdatePool=4, and every byte ≥ 5 is an invalid-instruction
error. The amount is read as an 8-byte little-endian integer from the bytes
following the opcode. -/
theorem c9_opcode_mapping :
    (Lending.LendingInstruction.fromPrimitive 0 = some .init ∧
     Lending.LendingInstruction.fromPrimitive 1 = some .deposit ∧
     Lending.LendingInstruction.fromPrimitive 2 = some .withdraw ∧
     Lending.LendingInstruction.fromPrimitive 3 = some .borrow ∧
     Lending.LendingInstruction.fromPrimitive 4 = some .repay ∧
     Lending.LendingInstruction.fromPrimitive 5 = some .addCollateral ∧
     Lending.LendingInstruction.fromPrimitive 6 = some .withdrawCollateral ∧
     Lending.LendingInstruction.fromPrimitive 7 = some .liquidatePosition) ∧
    (∀ b : Nat, 8 ≤ b → Lending.LendingInstruction.fromPrimitive b = none) ∧
    (Staking.StakingInstruction.fromPrimitive 0 = some .init ∧
     Staking.StakingInstruction.fromPrimitive 1 = some .stake ∧
     Staking.StakingInstruction.fromPrimitive 2 = some .unstake ∧
     Staking.StakingInstruction.fromPrimitive 3 = some .claimReward ∧
     Staking.StakingInstruction.fromPrimitive 4 = some .updatePool) ∧
    (∀ b : Nat, 5 ≤ b → Staking.StakingInstruction.fromPrimitive b = none) ∧
    (∀ b0 b1 b2 b3 b4 b5 b6 b7 : Nat, ∀ rest : List Nat,
      readU64LE (b0 :: b1 :: b2 :: b3 :: b4 :: b5 :: b6 :: b7 :: rest) =
        some (b0 + 256 * (b1 + 256 * (b2 + 256 * (b3 + 256 *
          (b4 + 256 * (b5 + 256 * (b6 + 256 * b7)))))))) := by
  refine ⟨⟨rfl, rfl, rfl, rfl, rfl, rfl, rfl, rfl⟩, ?_,
    ⟨rfl, rfl, rfl, rfl, rfl⟩, ?_, ?_⟩
  · intro b hb
    obtain ⟨c, rfl⟩ : ∃ c, b = c + 8 := ⟨b - 8, by omega⟩
    rfl
  · intro b hb
    obtain ⟨c, rfl⟩ : ∃ c, b = c + 5 := ⟨b - 5, by omega⟩
    rfl
  · intro b0 b1 b2 b3 b4 b5 b6 b7 rest
    rfl

/-- Witness for C9 (amended): byte 9 is invalid for both programs, and the
little-endian read of `[1,2,0,0,0,0,0,0]` is `513`. -/
theorem c9_opcode_mapping_witness :
    ((8 : Nat) ≤ 9 ∧ Lending.LendingInstruction.fromPrimitive 9 = none) ∧
    ((5 : Nat) ≤ 9 ∧ Staking.StakingInstruction.fromPrimitive 9 = none) ∧
    readU64LE [1, 2, 0, 0, 0, 0, 0, 0] = some 513 :=
  ⟨⟨by decide, c9_opcode_mapping.2.1 9 (by decide)⟩,
   ⟨by decide, c9_opcode_mapping.2.2.2.1 9 (by decide)⟩,
   c9_opcode_mapping.2.2.2.2 1 2 0 0 0 0 0 0 []⟩

/-- When the would-be balance violates the collateral inequality, the widened
check evaluates to `false` (the `unwrap_or(0)` fallbacks cannot fire for
u64-range inputs). -/
theorem check_collateral_ratio_false {pool : Lending.LendingPool}
    {dep bor : Nat} (hdep : dep < U64) (hbor : bor < U64)
    (hcr : pool.collateral_ratio < U64)
    (hviol : dep * 10000 < bor * pool.collateral_ratio) :
    Lending.check_collateral_ratio pool dep bor = false := by
  unfold Lending.check_collateral_ratio
  have hb0 : ¬ bor = 0 := by
    rintro rfl
    simp at hviol
  rw [if_neg hb0]
  have h1 : checkedMul128 dep 10000 = some (dep * 10000) := by
    refine checkedMul128_of_lt ?_
    calc dep * 10000 < U64 * 10000 :=
          mul_lt_mul_of_pos_right hdep (by norm_num)
      _ < U128 := by norm_num [U64, U128]
  have h2 : checkedMul128 bor pool.collateral_ratio =
      some (bor * pool.collateral_ratio) := by
    refine checkedMul128_of_lt ?_
    calc bor * pool.collateral_ratio < U64 * U64 :=
          Nat.mul_lt_mul_of_lt_of_lt hbor hcr
      _ ≤ U128 := by norm_num [U64, U128]
  rw [h1, h2]
  simp only [Option.getD_some]
  exact decide_eq_false (by omega)

/-- C2: a `Borrow` whose post-borrow balance violates the collateral
invariant — `deposit × 10000 < new_borrow × collateral_ratio` — fails with
the `InsufficientCollateral` custom error; the error aborts the instruction
before re-serialization, so the pool and position records are persisted
unchanged. -/
theorem c2_borrow_insufficient_collateral (pool : Lending.LendingPool)
    (user user1 : Lending.UserLendingInfo) (now : Int) (amount : Nat)
    (hui : Lending.update_interest pool user now = Except.ok user1)
    (hbd : pool.total_borrows ≤ pool.total_deposits)
    (hliq : amount ≤ pool.total_deposits - pool.total_borrows)
    (hnb : user.borrowed_amount + amount < U64)
    (hdep : user.deposited_amount < U64)
    (hcr : pool.collateral_ratio < U64)
    (hviol : user.deposited_amount * 10000 <
      (user.borrowed_amount + amount) * pool.collateral_ratio) :
    Lending.process_borrow pool user Lending.FEE_WALLET now amount =
      Except.error (Lending.lendingErr .insufficientCollateral) := by
  obtain ⟨hd, hb⟩ := Lending.update_interest_fields hui
  unfold Lending.process_borrow
  rw [if_neg (by simp)]
  rw [hui]
  dsimp only
  rw [checkedSub_of_le hbd]
  dsimp only
  rw [if_neg (by omega)]
  rw [checkedAdd64_of_lt (by rw [hb]; exact hnb)]
  dsimp only
  rw [if_pos ?_]
  refine (by simp : ¬ Lending.check_collateral_ratio pool user1.deposited_amount
      (user1.borrowed_amount + amount) = true → _) ?_
  rw [check_collateral_ratio_false (by rw [hd]; exact hdep)
    (by rw [hb]; omega) hcr (by rw [hd, hb]; exact hviol)]
  simp

/-- Witness for C2: deposit 100, collateral ratio 15000 bps, borrow request
67: 100×10000 = 1,000,000 < 67×15000 = 1,005,000, so the borrow is rejected
with `InsufficientCollateral`. -/
theorem c2_borrow_insufficient_collateral_witness :
    (thinLendingUser.deposited_amount * 10000 <
      (thinLendingUser.borrowed_amount + 67) *
        demoLendingPool.collateral_ratio) ∧
    Lending.process_borrow demoLendingPool thinLendingUser
        Lending.FEE_WALLET 0 67 =
      Except.error (Lending.lendingErr .insufficientCollateral) :=
  ⟨by decide,
   c2_borrow_insufficient_collateral demoLendingPool thinLendingUser
     thinLendingUser 0 67 rfl (by decide) (by decide) (by decide) (by decide)
     (by decide) (by decide)⟩

/-- C3: a successful `Repay` of `amount` against a debt of `borrowed_amount`
settles exactly `min(amount, borrowed_amount)`: the position's debt and the
pool's `total_borrows` both drop by that quantity, the debt can never go
negative, and an over-repayment zeroes the debt with no residual credit. -/
theorem c3_repay_caps (pool pool1 : Lending.LendingPool)
    (user user1 : Lending.UserLendingInfo) (now : Int) (amount repaid : Nat)
    (h : Lending.process_repay pool user now amount =
      Except.ok (pool1, user1, repaid)) :
    repaid = min amount user.borrowed_amount ∧
    user1.borrowed_amount + repaid = user.borrowed_amount ∧
    pool1.total_borrows + repaid = pool.total_borrows ∧
    (user.borrowed_amount ≤ amount → user1.borrowed_amount = 0) := by
  unfold Lending.process_repay at h
  split at h
  · simp at h
  · rename_i u1 hui
    obtain ⟨-, hb⟩ := Lending.update_interest_fields hui
    dsimp only at h
    split at h
    · simp at h
    · rename_i v1 hsub1
      split at h
      · simp at h
      · rename_i v2 hsub2
        simp only [Except.ok.injEq, Prod.mk.injEq] at h
        obtain ⟨hpool, huser, hrep⟩ := h
        subst hpool
        subst huser
        subst hrep
        obtain ⟨hv1, hle1⟩ := checkedSub_some hsub1
        obtain ⟨hv2, hle2⟩ := checkedSub_some hsub2
        have hmin1 : min amount u1.borrowed_amount ≤ u1.borrowed_amount :=
          Nat.min_le_right _ _
        have hmin2 : user.borrowed_amount ≤ amount →
            min amount u1.borrowed_amount = u1.borrowed_amount := by
          intro hle
          rw [hb]
          exact Nat.min_eq_right (hb ▸ hle)
        dsimp only
        refine ⟨by rw [hb], by omega, by omega, fun hle => by
          rw [hv1, hmin2 hle]; omega⟩

/-- Witness for C3: repaying 80 against a debt of 50 settles exactly 50 (the
minimum), zeroes the debt, and reduces `total_borrows` from 100 to 50. -/
theorem c3_repay_caps_witness :
    (50 : Nat) = min 80 repayUser.borrowed_amount ∧
    ({ repayUser with borrowed_amount := 0 } :
      Lending.UserLendingInfo).borrowed_amount + 50 =
        repayUser.borrowed_amount ∧
    ({ repayPool with total_borrows := 50 } :
      Lending.LendingPool).total_borrows + 50 = repayPool.total_borrows ∧
    (repayUser.borrowed_amount ≤ 80 →
      ({ repayUser with borrowed_amount := 0 } :
        Lending.UserLendingInfo).borrowed_amount = 0) :=
  c3_repay_caps repayPool { repayPool with total_borrows := 50 } repayUser
    { repayUser with borrowed_amount := 0 } 0 80 50 rfl

/-! ### Second-run identity of the settlement engine -/

namespace Staking

/-- Re-running `update_pool` at the timestamp it was just run at returns the
pool unchanged. -/
theorem update_pool_fix {p p1 : StakePool} {t : Int}
    (h : update_pool p t = Except.ok p1) :
    update_pool p1 t = Except.ok p1 := by
  unfold update_pool at h ⊢
  split at h
  · rename_i h0
    cases h
    simp [h0]
  · rename_i h0
    dsimp only at h
    split at h
    · split at h
      · simp at h
      · split at h
        · simp at h
        · split at h
          · simp at h
          · split at h
            · simp at h
            · cases h
              simp [h0]
    · rename_i hel
      cases h
      rw [if_neg h0]
      dsimp only
      rw [if_neg hel]

/-- Re-running `update_rewards` immediately after a settlement returns the
position unchanged: the owed delta is zero. -/
theorem update_rewards_fix {p : StakePool} {u u1 : UserStakeInfo}
    (h : update_rewards p u = Except.ok u1) :
    update_rewards p u1 = Except.ok u1 := by
  unfold update_rewards at h
  dsimp only at h
  split at h
  · simp at h
  · split at h
    · simp at h
    · split at h
      · simp at h
      · split at h
        · simp at h
        · rename_i e he
          cases h
          obtain ⟨hee, helt⟩ := checkedAdd64_some he
          unfold update_rewards
          dsimp only
          rw [checkedSub_of_le (le_refl _), Nat.sub_self]
          dsimp only
          rw [show checkedMul128 u.stake_amount 0 = some 0 by
            unfold checkedMul128 U128; norm_num]
          dsimp only
          rw [show checkedDiv 0 1000000000000 = some 0 by
            unfold checkedDiv; norm_num]
          dsimp only
          rw [Nat.zero_mod]
          rw [show checkedAdd64 e 0 = some e by
            unfold checkedAdd64; rw [Nat.add_zero]; rw [if_pos (by omega)]]

end Staking

namespace Lending

/-- Re-running `update_interest` at the timestamp it was just run at returns
the position unchanged: the elapsed time is zero. -/
theorem update_interest_fix {pool : LendingPool} {u u1 : UserLendingInfo}
    {t : Int} (h : update_interest pool u t = Except.ok u1) :
    update_interest pool u1 t = Except.ok u1 := by
  unfold update_interest at h ⊢
  dsimp only at h ⊢
  split at h
  · split at h
    · simp at h
    · split at h
      · simp at h
      · cases h
        dsimp only
        rw [if_neg (by simp [i64ToU64])]
  · rename_i h0
    cases h
    rw [if_neg h0]

end Lending

/-- C5: settlement is idempotent at a fixed timestamp. After a successful
sync-then-settle pair — staking `update_pool` then `update_rewards`, and
lending `update_interest` — re-running each at the same timestamp succeeds
and returns the pool / position unchanged (the owed delta is zero). -/
theorem c5_settlement_idempotent (sp sp1 : Staking.StakePool)
    (su su1 : Staking.UserStakeInfo) (lp : Lending.LendingPool)
    (lu lu1 : Lending.UserLendingInfo) (t : Int)
    (hp : Staking.update_pool sp t = Except.ok sp1)
    (hr : Staking.update_rewards sp1 su = Except.ok su1)
    (hl : Lending.update_interest lp lu t = Except.ok lu1) :
    Staking.update_pool sp1 t = Except.ok sp1 ∧
    Staking.update_rewards sp1 su1 = Except.ok su1 ∧
    Lending.update_interest lp lu1 t = Except.ok lu1 :=
  ⟨Staking.update_pool_fix hp, Staking.update_rewards_fix hr,
   Lending.update_interest_fix hl⟩

/-- Witness for C5: on the single-staker fixtures, the second
sync-then-settle at timestamp 10 returns each record unchanged. -/
theorem c5_settlement_idempotent_witness :
    Staking.update_pool syncedStakePool 10 = Except.ok syncedStakePool ∧
    Staking.update_rewards syncedStakePool settledStakeUser =
      Except.ok settledStakeUser ∧
    Lending.update_interest demoLendingPool syncedLendingUser 10 =
      Except.ok syncedLendingUser :=
  c5_settlement_idempotent (Staking.singleStakerPool 1000 100) syncedStakePool
    (Staking.singleStakerUser 1000) settledStakeUser demoLendingPool
    demoLendingUser syncedLendingUser 10 rfl rfl rfl

namespace Staking

/-- Closed-form success equation for `update_pool` when the pool is
non-empty, time advanced, and no checked operation overflows. -/
theorem update_pool_compute {p : StakePool} {t : Int}
    (h0 : p.total_staked ≠ 0) (he : 0 < t - p.last_update_time)
    (h1 : (t - p.last_update_time).toNat * p.reward_rate < U64)
    (h2 : (t - p.last_update_time).toNat * p.reward_rate * 1000000000000 <
      U128)
    (h3 : p.reward_per_token_stored +
      (t - p.last_update_time).toNat * p.reward_rate * 1000000000000 /
        p.total_staked < U128) :
    update_pool p t = Except.ok { p with
      reward_per_token_stored := p.reward_per_token_stored +
        (t - p.last_update_time).toNat * p.reward_rate * 1000000000000 /
          p.total_staked
      last_update_time := t } := by
  unfold update_pool
  rw [if_neg h0]
  dsimp only
  rw [if_pos he]
  rw [checkedMul64_of_lt h1]
  dsimp only
  rw [checkedMul128_of_lt h2]
  dsimp only
  rw [checkedDiv_of_ne h0]
  dsimp only
  rw [checkedAdd128_of_lt h3]

/-- Closed-form success equation for `update_rewards` when no checked
operation overflows. -/
theorem update_rewards_compute {p : StakePool} {u : UserStakeInfo}
    (h1 : u.reward_per_token_paid ≤ p.reward_per_token_stored)
    (h2 : u.stake_amount *
      (p.reward_per_token_stored - u.reward_per_token_paid) < U128)
    (h3 : u.rewards_earned + u.stake_amount *
      (p.reward_per_token_stored - u.reward_per_token_paid) /
        1000000000000 % U64 < U64) :
    update_rewards p u = Except.ok { u with
      rewards_earned := u.rewards_earned + u.stake_amount *
        (p.reward_per_token_stored - u.reward_per_token_paid) /
          1000000000000 % U64
      reward_per_token_paid := p.reward_per_token_stored } := by
  unfold update_rewards
  dsimp only
  rw [checkedSub_of_le h1]
  dsimp only
  rw [checkedMul128_of_lt h2]
  dsimp only
  rw [checkedDiv_of_ne (by norm_num)]
  dsimp only
  rw [checkedAdd64_of_lt h3]

end Staking

/-- C6: a single staker holding the whole stake `S` of a pool whose
accumulator and paid-to checkpoint are both 0: syncing after elapsed time
`T` at rate `R` and settling credits `T×R` rewards up to one unit of
floorrounding, independent of `S` (for any stake up to the 10^12 fixed-point
scale); concretely `S = 1000`, `R = 100`/s, `T = 10` s yields
`rewards_earned` exactly 1000. -/
theorem c6_single_staker_reward :
    (∀ S R T : Nat, 0 < S → 0 < T → S ≤ 1000000000000 → T * R < U64 →
      ∃ p1 u1,
        Staking.update_pool (Staking.singleStakerPool S R) (T : Int) =
          Except.ok p1 ∧
        Staking.update_rewards p1 (Staking.singleStakerUser S) =
          Except.ok u1 ∧
        T * R - 1 ≤ u1.rewards_earned ∧ u1.rewards_earned ≤ T * R) ∧
    (∃ p1 u1,
      Staking.update_pool (Staking.singleStakerPool 1000 100) 10 =
        Except.ok p1 ∧
      Staking.update_rewards p1 (Staking.singleStakerUser 1000) =
        Except.ok u1 ∧
      u1.rewards_earned = 1000) := by
  constructor
  · intro S R T hS hT hK hmul
    have h0 : (Staking.singleStakerPool S R).total_staked ≠ 0 := by
      simpa [Staking.singleStakerPool] using hS.ne'
    have hel : (0 : Int) <
        (T : Int) - (Staking.singleStakerPool S R).last_update_time := by
      simpa [Staking.singleStakerPool] using
        (by exact_mod_cast hT : (0 : Int) < (T : Int))
    have h2' : T * R * 1000000000000 < U128 :=
      lt_of_lt_of_le (mul_lt_mul_of_pos_right hmul (by norm_num))
        (by norm_num [U64, U128])
    have hq : T * R * 1000000000000 / S ≤ T * R * 1000000000000 :=
      Nat.div_le_self _ _
    have hpe0 := Staking.update_pool_compute h0 hel (by exact hmul)
      (by exact h2') (by exact (by omega : 0 + T * R * 1000000000000 / S < U128))
    have hpe : Staking.update_pool (Staking.singleStakerPool S R) (T : Int) =
        Except.ok { Staking.singleStakerPool S R with
          reward_per_token_stored := T * R * 1000000000000 / S
          last_update_time := (T : Int) } := by
      rw [hpe0]
      simp [Staking.singleStakerPool]
    have hsq : S * (T * R * 1000000000000 / S) ≤ T * R * 1000000000000 := by
      rw [Nat.mul_comm]
      exact Nat.div_mul_le_self _ _
    have hub : S * (T * R * 1000000000000 / S) / 1000000000000 ≤ T * R :=
      calc S * (T * R * 1000000000000 / S) / 1000000000000
          ≤ T * R * 1000000000000 / 1000000000000 := Nat.div_le_div_right hsq
        _ = T * R := Nat.mul_div_cancel _ (by norm_num)
    have hmod : S * (T * R * 1000000000000 / S) / 1000000000000 % U64 =
        S * (T * R * 1000000000000 / S) / 1000000000000 :=
      Nat.mod_eq_of_lt (lt_of_le_of_lt hub hmul)
    have hlb : T * R - 1 ≤
        S * (T * R * 1000000000000 / S) / 1000000000000 := by
      rw [Nat.le_div_iff_mul_le (by norm_num : (0 : Nat) < 1000000000000)]
      have hdm := Nat.div_add_mod (T * R * 1000000000000) S
      have hmlt : T * R * 1000000000000 % S < S :=
        Nat.mod_lt _ hS
      have hm_le : T * R * 1000000000000 % S ≤ 1000000000000 :=
        le_trans (le_of_lt hmlt) hK
      calc (T * R - 1) * 1000000000000
          = T * R * 1000000000000 - 1 * 1000000000000 := Nat.sub_mul _ _ _
        _ = T * R * 1000000000000 - 1000000000000 := by rw [one_mul]
        _ ≤ T * R * 1000000000000 - T * R * 1000000000000 % S :=
            Nat.sub_le_sub_left hm_le _
        _ = S * (T * R * 1000000000000 / S) :=
            (Nat.eq_sub_of_add_eq hdm).symm
    have hre0 := @Staking.update_rewards_compute
      { Staking.singleStakerPool S R with
        reward_per_token_stored := T * R * 1000000000000 / S
        last_update_time := (T : Int) }
      (Staking.singleStakerUser S)
      (Nat.zero_le _)
      (by simpa [Staking.singleStakerUser, Staking.singleStakerPool]
        using lt_of_le_of_lt hsq h2')
      (by simpa [Staking.singleStakerUser, Staking.singleStakerPool]
        using (Nat.mod_lt
          (S * (T * R * 1000000000000 / S) / 1000000000000)
          (by norm_num [U64] : 0 < U64)))
    have hre : Staking.update_rewards
        { Staking.singleStakerPool S R with
          reward_per_token_stored := T * R * 1000000000000 / S
          last_update_time := (T : Int) }
        (Staking.singleStakerUser S) =
      Except.ok { Staking.singleStakerUser S with
        rewards_earned :=
          S * (T * R * 1000000000000 / S) / 1000000000000 % U64
        reward_per_token_paid := T * R * 1000000000000 / S } := by
      rw [hre0]
      simp [Staking.singleStakerUser, Staking.singleStakerPool]
    refine ⟨_, _, hpe, hre, ?_, ?_⟩
    · dsimp only
      rw [hmod]
      exact hlb
    · dsimp only
      rw [hmod]
      exact hub
  · exact ⟨syncedStakePool, settledStakeUser, rfl, rfl, rfl⟩

/-- Witness for C6 (the general bounds applied at the concrete instance):
at S = 1000, R = 100, T = 10 the hypotheses hold and the settled reward lies
in [999, 1000]. -/
theorem c6_single_staker_reward_witness :
    (0 < 1000 ∧ 0 < 10 ∧ 1000 ≤ 1000000000000 ∧ 10 * 100 < U64) ∧
    (∃ p1 u1,
      Staking.update_pool (Staking.singleStakerPool 1000 100) (10 : Nat) =
        Except.ok p1 ∧
      Staking.update_rewards p1 (Staking.singleStakerUser 1000) =
        Except.ok u1 ∧
      10 * 100 - 1 ≤ u1.rewards_earned ∧ u1.rewards_earned ≤ 10 * 100) :=
  ⟨⟨by decide, by decide, by decide, by decide⟩,
   c6_single_staker_reward.1 1000 100 10 (by decide) (by decide) (by decide)
     (by decide)⟩

/-- C7: fee conservation on both fee-bearing calls. For a successful lending
`Borrow` of gross `amount`, the skimmed fee is
`floor(amount × SERVICE_FEE_BPS / 10000)`, the net disbursement is
`amount − fee`, and `fee + net = amount`. For a successful staking
`ClaimReward` the same holds for the gross settled reward
(`u1.rewards_earned` after sync and settle). -/
theorem c7_fee_skim_conservation :
    (∀ (pool pool1 : Lending.LendingPool)
        (user user1 : Lending.UserLendingInfo) (fw : String) (now : Int)
        (amount net fee : Nat),
      Lending.process_borrow pool user fw now amount =
        Except.ok (pool1, user1, net, fee) →
      fee = amount * Lending.SERVICE_FEE_BPS / 10000 ∧
      net = amount - fee ∧ fee + net = amount) ∧
    (∀ (pool pool1 : Staking.StakePool) (user user1 : Staking.UserStakeInfo)
        (fw : String) (now : Int) (net fee : Nat) (p1 : Staking.StakePool)
        (u1 : Staking.UserStakeInfo),
      Staking.update_pool pool now = Except.ok p1 →
      Staking.update_rewards p1 user = Except.ok u1 →
      Staking.process_claim_reward pool user fw now =
        Except.ok (pool1, user1, net, fee) →
      fee = u1.rewards_earned * Staking.SERVICE_FEE_BPS / 10000 ∧
      net = u1.rewards_earned - fee ∧ fee + net = u1.rewards_earned) := by
  constructor
  · intro pool pool1 user user1 fw now amount net fee h
    unfold Lending.process_borrow at h
    split at h
    · simp at h
    · split at h
      · simp at h
      · split at h
        · simp at h
        · split at h
          · simp at h
          · split at h
            · simp at h
            · split at h
              · simp at h
              · split at h
                · simp at h
                · rename_i m hm
                  split at h
                  · simp at h
                  · rename_i f hf
                    split at h
                    · simp at h
                    · rename_i n hn
                      split at h
                      · simp at h
                      · simp only [Except.ok.injEq, Prod.mk.injEq] at h
                        obtain ⟨-, -, hnet, hfee⟩ := h
                        obtain ⟨hm1, -⟩ := checkedMul64_some hm
                        obtain ⟨hf1, -⟩ := checkedDiv_some hf
                        obtain ⟨hn1, hn2⟩ := checkedSub_some hn
                        subst hnet
                        subst hfee
                        rw [hf1, hm1]
                        exact ⟨rfl, by rw [hn1, hf1, hm1], by omega⟩
  · intro pool pool1 user user1 fw now net fee p1 u1 hp hr h
    unfold Staking.process_claim_reward at h
    split at h
    · simp at h
    · rw [hp] at h
      dsimp only at h
      rw [hr] at h
      dsimp only at h
      split at h
      · split at h
        · simp at h
        · rename_i m hm
          split at h
          · simp at h
          · rename_i f hf
            split at h
            · simp at h
            · rename_i n hn
              simp only [Except.ok.injEq, Prod.mk.injEq] at h
              obtain ⟨-, -, hnet, hfee⟩ := h
              obtain ⟨hm1, -⟩ := checkedMul64_some hm
              obtain ⟨hf1, -⟩ := checkedDiv_some hf
              obtain ⟨hn1, hn2⟩ := checkedSub_some hn
              subst hnet
              subst hfee
              rw [hf1, hm1]
              exact ⟨rfl, by rw [hn1, hf1, hm1], by omega⟩
      · rename_i hz
        simp only [Except.ok.injEq, Prod.mk.injEq] at h
        obtain ⟨-, -, hnet, hfee⟩ := h
        have hz0 : u1.rewards_earned = 0 := by omega
        subst hnet
        subst hfee
        simp [hz0]

/-- Witness for C7: borrowing 1000 at 20 bps skims fee 2 and disburses 998;
claiming a settled reward of 1000 at 30 bps skims fee 3 and pays 997; both
splits conserve the gross amount. -/
theorem c7_fee_skim_conservation_witness :
    ((2 : Nat) = 1000 * Lending.SERVICE_FEE_BPS / 10000 ∧
      (998 : Nat) = 1000 - 2 ∧ 2 + 998 = 1000) ∧
    ((3 : Nat) = settledStakeUser.rewards_earned *
        Staking.SERVICE_FEE_BPS / 10000 ∧
      (997 : Nat) = settledStakeUser.rewards_earned - 3 ∧
      3 + 997 = settledStakeUser.rewards_earned) :=
  ⟨c7_fee_skim_conservation.1 demoLendingPool
     { demoLendingPool with total_borrows := 1000 } demoLendingUser
     { demoLendingUser with borrowed_amount := 1000 } Lending.FEE_WALLET 0
     1000 998 2 rfl,
   c7_fee_skim_conservation.2 (Staking.singleStakerPool 1000 100)
     syncedStakePool (Staking.singleStakerUser 1000)
     { settledStakeUser with rewards_earned := 0 } Staking.FEE_WALLET 10
     997 3 syncedStakePool settledStakeUser rfl rfl rfl⟩

namespace Staking

/-- `update_rewards` never changes the staked principal. -/
theorem update_rewards_stake {p : StakePool} {u u1 : UserStakeInfo}
    (h : update_rewards p u = Except.ok u1) :
    u1.stake_amount = u.stake_amount := by
  unfold update_rewards at h
  dsimp only at h
  repeat' split at h
  all_goals first
  | (cases h; rfl)
  | simp at h

end Staking

/-- C10: boundary resolution of the staking lock. The `StakeLocked` guard is
a strict `<`, so an unstake at `now = start_time + lock_period` (or later)
passes the lock check, and when the requested amount does not exceed the
staked balance (and the checked sync/settle arithmetic succeeds, as in every
reachable in-range state) the unstake completes, debiting exactly `amount`
from the position's stake and the pool's `total_staked`. -/
theorem c10_unstake_boundary (pool p1 : Staking.StakePool)
    (user u1 : Staking.UserStakeInfo) (now : Int) (amount : Nat)
    (hlock : user.start_time + user.lock_period ≤ now)
    (hbal : amount ≤ user.stake_amount)
    (hp : Staking.update_pool pool now = Except.ok p1)
    (hr : Staking.update_rewards p1 user = Except.ok u1)
    (htot : amount ≤ p1.total_staked) :
    Staking.process_unstake pool user now amount =
      Except.ok ({ p1 with total_staked := p1.total_staked - amount },
        { u1 with stake_amount := u1.stake_amount - amount }) := by
  unfold Staking.process_unstake
  rw [if_neg (not_lt.mpr hlock)]
  rw [if_neg (not_lt.mpr hbal)]
  rw [hp]
  dsimp only
  rw [hr]
  dsimp only
  rw [checkedSub_of_le (by rw [Staking.update_rewards_stake hr]; exact hbal)]
  dsimp only
  rw [checkedSub_of_le htot]

/-- Witness for C10: exactly at the lock boundary (7 days after start) an
unstake of 400 out of 1000 succeeds and debits both records by 400. -/
theorem c10_unstake_boundary_witness :
    ((Staking.singleStakerUser 1000).start_time +
        (Staking.singleStakerUser 1000).lock_period ≤ (604800 : Int)) ∧
    Staking.process_unstake (Staking.singleStakerPool 1000 0)
        (Staking.singleStakerUser 1000) 604800 400 =
      Except.ok
        ({ Staking.singleStakerPool 1000 0 with
            total_staked := 600
            last_update_time := 604800 },
          { Staking.singleStakerUser 1000 with stake_amount := 600 }) :=
  ⟨by decide,
   c10_unstake_boundary (Staking.singleStakerPool 1000 0)
     { Staking.singleStakerPool 1000 0 with last_update_time := 604800 }
     (Staking.singleStakerUser 1000) (Staking.singleStakerUser 1000)
     604800 400 (by decide) (by decide) rfl rfl (by decide)⟩

end Solmint
